import Mathlib

/-
Shallow embedding of `plur/stage_1/manysstubs4j_dataset.py` (the single source
file of the repository) together with a model of the `GraphToOutputExample`
container it imports from `plur/utils/graph_to_output_example.py` (that module
is not part of the source tree here, so it is modelled from the specification).

Conventions:
- a source-code token is a `(token-type-name, token-value)` pair of strings;
- the external javalang tokenizer is an explicit parameter
  `tok : String → Except String (List Tok)`; `.error` models a raised
  `javalang.tokenizer.LexerError`;
- the external unidiff parser is modelled through the hunk it returns: a
  `Hunk` holds the `source` and `target` line lists of `patch[0][0]`, each
  line still carrying its one-character diff marker;
- the split generator `random_split_fn` is an explicit stateful function
  `gen : σ → String × σ` (each call draws a split and advances the state);
- Python exceptions that escape a function are modelled with `Except`.
-/

/-- A source-code token: `(type(token).__name__, token.value)`. -/
abbrev Tok := String × String

/-- Modelled from the spec: a node of `GraphToOutputExample`
(`plur/utils/graph_to_output_example.py`, not under `src/`): a unique integer
id assigned by insertion order, a type tag and a value (spec §3). -/
structure Node where
  id : Nat
  type : String
  value : String
deriving DecidableEq

/-- Modelled from the spec: an edge `(source_id, target_id, edge_type)`
triple (spec §3). -/
structure Edge where
  src : Nat
  tgt : Nat
  type : String
deriving DecidableEq

/-- Modelled from the spec: the `GraphToOutputExample` container of
`plur/utils/graph_to_output_example.py` (not under `src/`): an ordered node
sequence, an edge sequence, and at most one class-label output (spec §3). -/
structure GraphToOutputExample where
  nodes : List Node
  edges : List Edge
  output : Option String
deriving DecidableEq

/-- Modelled from the spec: `add_node(id, type, value)` appends a node and
fails with `DuplicateNodeError` if the id is already present (spec §4.1; the
dense-range check is deferred to validation, as the spec allows). -/
def GraphToOutputExample.add_node (g : GraphToOutputExample) (i : Nat)
    (ty val : String) : Except String GraphToOutputExample :=
  if g.nodes.any (fun n => n.id = i) then
    .error "DuplicateNodeError"
  else
    .ok { g with nodes := g.nodes ++ [⟨i, ty, val⟩] }

/-- Modelled from the spec: `add_edge(source_id, target_id, edge_type)`
records an edge; the edge type is an open vocabulary (spec §4.1). -/
def GraphToOutputExample.add_edge (g : GraphToOutputExample) (s t : Nat)
    (ty : String) : GraphToOutputExample :=
  { g with edges := g.edges ++ [⟨s, t, ty⟩] }

/-- Modelled from the spec: `add_class_output(label)` fails with
`OutputAlreadySetError` if an output was already assigned (spec §4.1). -/
def GraphToOutputExample.add_class_output (g : GraphToOutputExample)
    (label : String) : Except String GraphToOutputExample :=
  if g.output.isSome then
    .error "OutputAlreadySetError"
  else
    .ok { g with output := some label }

/-- Modelled from the spec: `get_nodes()` returns the ordered node sequence
as currently populated (spec §4.1). -/
def GraphToOutputExample.get_nodes (g : GraphToOutputExample) : List Node :=
  g.nodes

/-- Modelled from the spec: `check_if_valid()` is a pure predicate, true iff
every edge endpoint is an existing node id, exactly one output is set, and
the node ids are exactly 0..N-1 in insertion order (spec §3 invariants
(a)-(c), §4.1, §8.1). -/
def GraphToOutputExample.check_if_valid (g : GraphToOutputExample) : Bool :=
  g.edges.all (fun e =>
      g.nodes.any (fun n => n.id = e.src) && g.nodes.any (fun n => n.id = e.tgt))
    && g.output.isSome
    && decide (g.nodes.map Node.id = List.range g.nodes.length)

/-- A raw record yielded by the extractor: the dict
`{'split': ..., 'tokens': ..., 'label': ...}`. -/
structure RawRecord where
  split : String
  tokens : List Tok
  label : String
deriving DecidableEq

/-- The node-construction loop of `raw_data_to_graph_to_output_example`
(lines 167-169): `add_node(index, token_type, token_value)` for each token in
`enumerate(tokens)` order. -/
def addTokenNodes (g : GraphToOutputExample) :
    List (Nat × Tok) → Except String GraphToOutputExample
  | [] => .ok g
  | (i, t) :: rest => do
    let g' ← g.add_node i t.1 t.2
    addTokenNodes g' rest

/-- The edge-construction loop (lines 171-174): `add_edge(i, i+1, 'NEXT_TOKEN')`
for each `i` in the given index list. -/
def addChainEdges (g : GraphToOutputExample) : List Nat → GraphToOutputExample
  | [] => g
  | i :: rest => addChainEdges (g.add_edge i (i + 1) "NEXT_TOKEN") rest

/-- The construction part of `raw_data_to_graph_to_output_example`
(lines 165-177): fresh graph, one node per token, chain edges for
`i in range(len(get_nodes()) - 1)`, then the class output. -/
def buildGraph (tokens : List Tok) (label : String) :
    Except String GraphToOutputExample := do
  let g0 : GraphToOutputExample := { nodes := [], edges := [], output := none }
  let g1 ← addTokenNodes g0 tokens.enum
  let g2 := addChainEdges g1 (List.range (g1.get_nodes.length - 1))
  g2.add_class_output label

/-- Closed form of the constructed token-chain graph: nodes 0..N-1 in token
order, edges (i, i+1, NEXT_TOKEN) for i in [0, N-2], output the label. -/
def chainGraph (tokens : List Tok) (label : String) : GraphToOutputExample :=
  { nodes := tokens.enum.map (fun p => ⟨p.1, p.2.1, p.2.2⟩)
    edges := (List.range (tokens.length - 1)).map (fun i => ⟨i, i + 1, "NEXT_TOKEN"⟩)
    output := some label }

theorem ok_bind {α β : Type} (a : α) (f : α → Except String β) :
    (Except.ok a >>= f : Except String β) = f a := rfl

theorem addTokenNodes_enumFrom (ts : List Tok) :
    ∀ (k : Nat) (g : GraphToOutputExample), (∀ n ∈ g.nodes, n.id < k) →
      addTokenNodes g (ts.enumFrom k) =
        .ok { g with nodes := g.nodes ++ (ts.enumFrom k).map (fun p => ⟨p.1, p.2.1, p.2.2⟩) } := by
  induction ts with
  | nil => intro k g _; simp [addTokenNodes, List.enumFrom]
  | cons t ts ih =>
    intro k g hg
    have hnone : g.nodes.any (fun n => n.id = k) = false := by
      simp only [List.any_eq_false, decide_eq_true_eq]
      intro n hn
      exact Nat.ne_of_lt (hg n hn)
    simp only [List.enumFrom, addTokenNodes, GraphToOutputExample.add_node, hnone,
      Bool.false_eq_true, if_false, ok_bind, List.map_cons]
    rw [ih (k + 1)]
    · simp
    · intro n hn
      simp only [List.mem_append, List.mem_singleton] at hn
      rcases hn with hn | hn
      · exact Nat.lt_succ_of_lt (hg n hn)
      · subst hn; exact Nat.lt_succ_self k

theorem addChainEdges_eq (l : List Nat) :
    ∀ g : GraphToOutputExample,
      addChainEdges g l =
        { g with edges := g.edges ++ l.map (fun i => ⟨i, i + 1, "NEXT_TOKEN"⟩) } := by
  induction l with
  | nil => intro g; simp [addChainEdges]
  | cons i l ih =>
    intro g
    simp only [addChainEdges, ih, GraphToOutputExample.add_edge, List.map_cons,
      List.append_assoc, List.singleton_append]

theorem buildGraph_eq (ts : List Tok) (label : String) :
    buildGraph ts label = .ok (chainGraph ts label) := by
  have h1 : addTokenNodes { nodes := [], edges := [], output := none } ts.enum =
      .ok { nodes := ts.enum.map (fun p => ⟨p.1, p.2.1, p.2.2⟩)
            edges := [], output := none } := by
    have h := addTokenNodes_enumFrom ts 0 { nodes := [], edges := [], output := none }
      (by intro n hn; simp at hn)
    simpa using h
  simp only [buildGraph, h1, ok_bind]
  rw [addChainEdges_eq]
  simp [GraphToOutputExample.get_nodes, GraphToOutputExample.add_class_output,
    chainGraph, List.enum_length]

/-- An observable step of `raw_data_to_graph_to_output_example` after graph
construction: running transformation hook `i`, running `check_if_valid`
(with its result), or running filter hook `i` (with its result). -/
inductive PipelineEvent where
  | transform (i : Nat)
  | validate (ok : Bool)
  | filterHook (i : Nat) (kept : Bool)
deriving DecidableEq

/-- The transformation-hook loop (lines 179-180): each hook consumes and
returns the graph, in list order. The trace records one `transform` event
per hook, numbered from `i`. -/
def runTransforms (tfs : List (GraphToOutputExample → GraphToOutputExample))
    (g : GraphToOutputExample) (i : Nat) :
    List PipelineEvent × GraphToOutputExample :=
  match tfs with
  | [] => ([], g)
  | f :: fs =>
    let r := runTransforms fs (f g) (i + 1)
    (.transform i :: r.1, r.2)

/-- The filter-hook loop (lines 187-190): hooks run in list order; the first
hook returning false sets the example to `None` and breaks out of the loop. -/
def runFilters (ffs : List (GraphToOutputExample → Bool))
    (g : GraphToOutputExample) (i : Nat) :
    List PipelineEvent × Option GraphToOutputExample :=
  match ffs with
  | [] => ([], some g)
  | f :: fs =>
    if f g then
      let r := runFilters fs g (i + 1)
      (.filterHook i true :: r.1, r.2)
    else
      ([.filterHook i false], none)

/-- `ManySStuBs4JDataset.raw_data_to_graph_to_output_example` (lines 141-192):
build the token-chain graph, apply the transformation hooks, validate (raising
`GraphToOutputExampleNotValidError`, modelled as `.error`, when
`check_if_valid` is false), apply the filter hooks, and return
`{'split': split, 'GraphToOutputExample': graph-or-None}`. The first
component is the trace of pipeline events that were executed. -/
def raw_data_to_graph_to_output_example
    (tfs : List (GraphToOutputExample → GraphToOutputExample))
    (ffs : List (GraphToOutputExample → Bool)) (raw : RawRecord) :
    List PipelineEvent × Except String (String × Option GraphToOutputExample) :=
  match buildGraph raw.tokens raw.label with
  | .error e => ([], .error e)
  | .ok g0 =>
    let tr := runTransforms tfs g0 0
    if tr.2.check_if_valid then
      let fr := runFilters ffs tr.2 0
      (tr.1 ++ .validate true :: fr.1, .ok (raw.split, fr.2))
    else
      (tr.1 ++ [.validate false], .error "Invalid GraphToOutputExample found")

/-- The combined effect of the transformation-hook loop on the graph. -/
def applyTransforms (tfs : List (GraphToOutputExample → GraphToOutputExample))
    (g : GraphToOutputExample) : GraphToOutputExample :=
  tfs.foldl (fun g f => f g) g

theorem runTransforms_eq (tfs : List (GraphToOutputExample → GraphToOutputExample)) :
    ∀ (g : GraphToOutputExample) (i : Nat),
      runTransforms tfs g i =
        ((List.range' i tfs.length).map PipelineEvent.transform, applyTransforms tfs g) := by
  induction tfs with
  | nil => intro g i; simp [runTransforms, applyTransforms, List.range']
  | cons f fs ih =>
    intro g i
    simp [runTransforms, ih (f g) (i + 1), applyTransforms, List.range']

theorem runFilters_events (ffs : List (GraphToOutputExample → Bool)) :
    ∀ (g : GraphToOutputExample) (i : Nat) (e : PipelineEvent),
      e ∈ (runFilters ffs g i).1 → ∃ j k, e = .filterHook j k := by
  induction ffs with
  | nil => intro g i e he; simp [runFilters] at he
  | cons f fs ih =>
    intro g i e he
    by_cases hf : f g
    · simp only [runFilters, hf, if_true, List.mem_cons] at he
      rcases he with he | he
      · exact ⟨i, true, he⟩
      · exact ih g (i + 1) e he
    · simp only [runFilters, if_neg hf, List.mem_singleton] at he
      exact ⟨i, false, he⟩

theorem runFilters_all_true (ffs : List (GraphToOutputExample → Bool)) :
    ∀ (g : GraphToOutputExample) (i : Nat), (∀ f ∈ ffs, f g = true) →
      runFilters ffs g i =
        ((List.range' i ffs.length).map (fun j => .filterHook j true), some g) := by
  induction ffs with
  | nil => intro g i _; simp [runFilters, List.range']
  | cons f fs ih =>
    intro g i hall
    have hf : f g = true := hall f (List.mem_cons_self f fs)
    simp [runFilters, hf, ih g (i + 1) (fun f' hf' => hall f' (List.mem_cons_of_mem f hf')),
      List.range']

theorem runFilters_first_false (as : List (GraphToOutputExample → Bool))
    (f : GraphToOutputExample → Bool) (bs : List (GraphToOutputExample → Bool)) :
    ∀ (g : GraphToOutputExample) (i : Nat),
      (∀ a ∈ as, a g = true) → f g = false →
      runFilters (as ++ f :: bs) g i =
        ((List.range' i as.length).map (fun j => .filterHook j true) ++
          [.filterHook (i + as.length) false], none) := by
  induction as with
  | nil => intro g i _ hf; simp [runFilters, hf, List.range']
  | cons a as ih =>
    intro g i hall hf
    have ha : a g = true := hall a (List.mem_cons_self a as)
    have ihg := ih g (i + 1) (fun a' ha' => hall a' (List.mem_cons_of_mem a ha')) hf
    have harith : i + 1 + as.length = i + (as.length + 1) := by omega
    simp only [List.cons_append, runFilters, ha, if_true]
    rw [show as.append (f :: bs) = as ++ f :: bs from rfl, ihg]
    simp [List.range', harith]

/-- One hunk of a parsed unified diff, as exposed by unidiff: the `source`
and `target` line lists, every line still carrying its one-character diff
marker (' ', '+' or '-'). -/
structure Hunk where
  source : List String
  target : List String
deriving DecidableEq

/-- A parsed patch set as exposed by unidiff: a list of changed files, each
a list of hunks. -/
abbrev ParsedPatch := List (List Hunk)

/-- Line 223: `''.join([line[1:] for line in patch[0][0].source])`, for a
given hunk. -/
def sourceText (h : Hunk) : String :=
  String.join (h.source.map (fun l => l.drop 1))

/-- Line 224: `''.join([line[1:] for line in patch[0][0].target])`, for a
given hunk. -/
def targetText (h : Hunk) : String :=
  String.join (h.target.map (fun l => l.drop 1))

/-- The external javalang tokenizer: `.error` models a raised
`javalang.tokenizer.LexerError`. -/
abbrev Tokenizer := String → Except String (List Tok)

/-- The body of `JsonExtractor._patch_to_source_and_target_tokens`
(lines 214-238) once unidiff has produced the hunk `patch[0][0]`: tokenize
the source text, then the target text; a lexer error raised by either
tokenization is caught by the single `try` block and yields `([], [])`. -/
def patch_to_source_and_target_tokens (tok : Tokenizer) (h : Hunk) :
    List Tok × List Tok :=
  match tok (sourceText h) with
  | .error _ => ([], [])
  | .ok source_tokens =>
    match tok (targetText h) with
    | .error _ => ([], [])
    | .ok target_tokens => (source_tokens, target_tokens)

/-- The hunk `patch[0][0]` selected on lines 223-224; `none` models the
`IndexError` raised when the parsed patch has no file or no hunk. -/
def firstHunk (p : ParsedPatch) : Option Hunk :=
  match p with
  | (h :: _) :: _ => some h
  | _ => none

/-- `JsonExtractor._patch_to_source_and_target_tokens` at the level of the
whole parsed patch set: index `patch[0][0]` and tokenize its two snippets. -/
def patch_set_to_source_and_target_tokens (tok : Tokenizer) (p : ParsedPatch) :
    Option (List Tok × List Tok) :=
  (firstHunk p).map (patch_to_source_and_target_tokens tok)

/-- One entry of the input JSON array: the fields of `json_data` that the
extractor reads (`fixPatch` and `bugType`). -/
structure JsonRecord where
  fixPatch : String
  bugType : String
deriving DecidableEq

/-- `JsonExtractor._raw_data_dict_generator` (lines 240-264) over an already
decoded JSON array, with the unidiff parser abstracted as
`parseHunk : String → Hunk` (the first hunk of the first changed file of the
patch, per the single-file single-hunk dataset guarantee) and the stateful
`random_split_fn` as `gen : σ → String × σ` threaded through the run. For
each record: tokenize before/after; skip the record if the before-token list
is empty; otherwise yield the before-record (original `bugType` label, one
split draw) and then the after-record (`NO_BUG` label, a second split
draw). Returns the yielded records and the final generator state. -/
def raw_data_dict_generator {σ : Type} (tok : Tokenizer)
    (parseHunk : String → Hunk) (gen : σ → String × σ) :
    List JsonRecord → σ → List RawRecord × σ
  | [], s => ([], s)
  | r :: rs, s =>
    let tt := patch_to_source_and_target_tokens tok (parseHunk r.fixPatch)
    if tt.1.isEmpty then
      raw_data_dict_generator tok parseHunk gen rs s
    else
      let d1 := gen s
      let d2 := gen d1.2
      let rest := raw_data_dict_generator tok parseHunk gen rs d2.2
      (⟨d1.1, tt.1, r.bugType⟩ :: ⟨d2.1, tt.2, "NO_BUG"⟩ :: rest.1, rest.2)

/-- The split-generator state after `n` draws from state `s`. -/
def genState {σ : Type} (gen : σ → String × σ) : σ → Nat → σ
  | s, 0 => s
  | s, n + 1 => genState gen (gen s).2 n

/-- The `n`-th split drawn by the generator when started from state `s`. -/
def drawStream {σ : Type} (gen : σ → String × σ) (s : σ) (n : Nat) : String :=
  (gen (genState gen s n)).1

/-- C1: before any transformation hook runs, a raw record with N tokens
yields a graph with exactly N nodes with ids 0..N-1 in token order (node
type = token-type tag, node value = token text) and max(0, N-1) edges
(i, i+1, NEXT_TOKEN) for i in [0, N-2]; in particular the token list
[(A,"x"),(B,"y"),(C,"z")] yields nodes 0,1,2 and edges (0,1,NEXT_TOKEN),
(1,2,NEXT_TOKEN), and a single token yields zero edges. -/
theorem C1_chain_graph_construction (ts : List Tok) (label : String) :
    buildGraph ts label = .ok (chainGraph ts label) ∧
    (chainGraph ts label).nodes = ts.enum.map (fun p => ⟨p.1, p.2.1, p.2.2⟩) ∧
    (chainGraph ts label).edges =
      (List.range (ts.length - 1)).map (fun i => ⟨i, i + 1, "NEXT_TOKEN"⟩) ∧
    (chainGraph ts label).nodes.length = ts.length ∧
    (chainGraph ts label).edges.length = ts.length - 1 ∧
    buildGraph [("A", "x"), ("B", "y"), ("C", "z")] "L" =
      .ok { nodes := [⟨0, "A", "x"⟩, ⟨1, "B", "y"⟩, ⟨2, "C", "z"⟩]
            edges := [⟨0, 1, "NEXT_TOKEN"⟩, ⟨1, 2, "NEXT_TOKEN"⟩]
            output := some "L" } ∧
    buildGraph [("A", "x")] "L" =
      .ok { nodes := [⟨0, "A", "x"⟩], edges := [], output := some "L" } := by
  refine ⟨buildGraph_eq ts label, rfl, rfl, ?_, ?_, ?_, ?_⟩
  · simp [chainGraph, List.enum_length]
  · simp [chainGraph]
  · rw [buildGraph_eq]; rfl
  · rw [buildGraph_eq]; rfl

/-- C5: for every raw record, validation runs exactly once, after the whole
ordered sequence of transformation hooks (the trace is the transform events
followed by a single validate event, followed only by filter events); the
call errors (the uncaught GraphToOutputExampleNotValidError) iff
check_if_valid is false at that point, and when it is false no filter hook
event occurs. -/
theorem C5_validate_once_after_transforms
    (tfs : List (GraphToOutputExample → GraphToOutputExample))
    (ffs : List (GraphToOutputExample → Bool)) (raw : RawRecord) :
    ∃ fevs,
      (raw_data_to_graph_to_output_example tfs ffs raw).1 =
        (List.range' 0 tfs.length).map PipelineEvent.transform ++
          PipelineEvent.validate
            (applyTransforms tfs (chainGraph raw.tokens raw.label)).check_if_valid :: fevs ∧
      (∀ e ∈ fevs, ∃ j k, e = PipelineEvent.filterHook j k) ∧
      ((∃ msg, (raw_data_to_graph_to_output_example tfs ffs raw).2 = .error msg) ↔
        (applyTransforms tfs (chainGraph raw.tokens raw.label)).check_if_valid = false) ∧
      ((applyTransforms tfs (chainGraph raw.tokens raw.label)).check_if_valid = false →
        fevs = [] ∧
        (raw_data_to_graph_to_output_example tfs ffs raw).2 =
          .error "Invalid GraphToOutputExample found") := by
  have hb := buildGraph_eq raw.tokens raw.label
  have htr := runTransforms_eq tfs (chainGraph raw.tokens raw.label) 0
  by_cases hv : (applyTransforms tfs (chainGraph raw.tokens raw.label)).check_if_valid = true
  · refine ⟨(runFilters ffs (applyTransforms tfs (chainGraph raw.tokens raw.label)) 0).1,
      ?_, ?_, ?_, ?_⟩
    · simp [raw_data_to_graph_to_output_example, hb, htr, hv]
    · exact fun e he => runFilters_events ffs _ 0 e he
    · simp [raw_data_to_graph_to_output_example, hb, htr, hv]
    · intro hfalse; rw [hv] at hfalse; exact absurd hfalse (by simp)
  · have hv' : (applyTransforms tfs (chainGraph raw.tokens raw.label)).check_if_valid = false :=
      Bool.not_eq_true _ ▸ eq_false_of_ne_true hv
    refine ⟨[], ?_, ?_, ?_, ?_⟩
    · simp [raw_data_to_graph_to_output_example, hb, htr, hv']
    · intro e he; simp at he
    · simp [raw_data_to_graph_to_output_example, hb, htr, hv']
    · intro _
      constructor
      · rfl
      · simp [raw_data_to_graph_to_output_example, hb, htr, hv']

/-- C6: when the transformed graph passes validation, a run with filter
hooks all returning true returns the validated graph, and a run whose
filter list has a first rejecting hook returns normally with the example
set to None, the trace showing exactly the accepting hooks before the
rejecting one and nothing after it. -/
theorem C6_filter_rejection_is_silent
    (tfs : List (GraphToOutputExample → GraphToOutputExample)) (raw : RawRecord)
    (hvalid : (applyTransforms tfs (chainGraph raw.tokens raw.label)).check_if_valid = true) :
    (∀ ffs : List (GraphToOutputExample → Bool),
      (∀ f ∈ ffs, f (applyTransforms tfs (chainGraph raw.tokens raw.label)) = true) →
      raw_data_to_graph_to_output_example tfs ffs raw =
        ((List.range' 0 tfs.length).map PipelineEvent.transform ++
          PipelineEvent.validate true ::
            (List.range' 0 ffs.length).map (fun j => PipelineEvent.filterHook j true),
         .ok (raw.split, some (applyTransforms tfs (chainGraph raw.tokens raw.label))))) ∧
    (∀ (as : List (GraphToOutputExample → Bool)) (f : GraphToOutputExample → Bool)
        (bs : List (GraphToOutputExample → Bool)),
      (∀ a ∈ as, a (applyTransforms tfs (chainGraph raw.tokens raw.label)) = true) →
      f (applyTransforms tfs (chainGraph raw.tokens raw.label)) = false →
      raw_data_to_graph_to_output_example tfs (as ++ f :: bs) raw =
        ((List.range' 0 tfs.length).map PipelineEvent.transform ++
          PipelineEvent.validate true ::
            ((List.range' 0 as.length).map (fun j => PipelineEvent.filterHook j true) ++
              [PipelineEvent.filterHook as.length false]),
         .ok (raw.split, none))) := by
  have hb := buildGraph_eq raw.tokens raw.label
  have htr := runTransforms_eq tfs (chainGraph raw.tokens raw.label) 0
  constructor
  · intro ffs hall
    have hrf := runFilters_all_true ffs (applyTransforms tfs (chainGraph raw.tokens raw.label)) 0 hall
    simp [raw_data_to_graph_to_output_example, hb, htr, hvalid, hrf]
  · intro as f bs hall hf
    have hrf := runFilters_first_false as f bs
      (applyTransforms tfs (chainGraph raw.tokens raw.label)) 0 hall hf
    rw [Nat.zero_add] at hrf
    simp [raw_data_to_graph_to_output_example, hb, htr, hvalid, hrf]

/-- C9: whenever raw_data_to_graph_to_output_example returns (does not
raise), the split in the returned mapping is raw_data's split unchanged. -/
theorem C9_split_unchanged
    (tfs : List (GraphToOutputExample → GraphToOutputExample))
    (ffs : List (GraphToOutputExample → Bool)) (raw : RawRecord)
    (r : String × Option GraphToOutputExample)
    (h : (raw_data_to_graph_to_output_example tfs ffs raw).2 = .ok r) :
    r.1 = raw.split := by
  have hb := buildGraph_eq raw.tokens raw.label
  have htr := runTransforms_eq tfs (chainGraph raw.tokens raw.label) 0
  by_cases hv : (applyTransforms tfs (chainGraph raw.tokens raw.label)).check_if_valid = true
  · simp only [raw_data_to_graph_to_output_example, hb, htr, hv, if_true] at h
    cases h
    rfl
  · have hv' : (applyTransforms tfs (chainGraph raw.tokens raw.label)).check_if_valid = false :=
      Bool.not_eq_true _ ▸ eq_false_of_ne_true hv
    simp [raw_data_to_graph_to_output_example, hb, htr, hv'] at h

theorem generator_cons_emit {σ : Type} (tok : Tokenizer) (parseHunk : String → Hunk)
    (gen : σ → String × σ) (r : JsonRecord) (rs : List JsonRecord) (s : σ)
    (st tt : List Tok)
    (hs : tok (sourceText (parseHunk r.fixPatch)) = .ok st) (hne : st ≠ [])
    (ht : tok (targetText (parseHunk r.fixPatch)) = .ok tt) :
    raw_data_dict_generator tok parseHunk gen (r :: rs) s =
      ({ split := (gen s).1, tokens := st, label := r.bugType } ::
        { split := (gen (gen s).2).1, tokens := tt, label := "NO_BUG" } ::
          (raw_data_dict_generator tok parseHunk gen rs (gen (gen s).2).2).1,
        (raw_data_dict_generator tok parseHunk gen rs (gen (gen s).2).2).2) := by
  have htt : patch_to_source_and_target_tokens tok (parseHunk r.fixPatch) = (st, tt) := by
    simp [patch_to_source_and_target_tokens, hs, ht]
  have hemp : st.isEmpty = false := by
    cases st with
    | nil => exact absurd rfl hne
    | cons a l => rfl
  simp [raw_data_dict_generator, htt, hemp]

theorem generator_cons_skip {σ : Type} (tok : Tokenizer) (parseHunk : String → Hunk)
    (gen : σ → String × σ) (r : JsonRecord) (rs : List JsonRecord) (s : σ)
    (hemp : (patch_to_source_and_target_tokens tok (parseHunk r.fixPatch)).1 = []) :
    raw_data_dict_generator tok parseHunk gen (r :: rs) s =
      raw_data_dict_generator tok parseHunk gen rs s := by
  simp [raw_data_dict_generator, hemp]

/-- C2 (amended): for every input patch record whose before-snippet
tokenizes to a non-empty token list and whose after-snippet tokenizes
without a lexer error, the extractor emits exactly two raw records: first
the before-tokens with the record's original bugType label, then the
after-tokens with the fixed label NO_BUG, their splits coming from two
separate successive calls to the split generator. -/
theorem C2_two_records_per_patch {σ : Type} (tok : Tokenizer)
    (parseHunk : String → Hunk) (gen : σ → String × σ) (r : JsonRecord)
    (rs : List JsonRecord) (s : σ) (st tt : List Tok)
    (hs : tok (sourceText (parseHunk r.fixPatch)) = .ok st) (hne : st ≠ [])
    (ht : tok (targetText (parseHunk r.fixPatch)) = .ok tt) :
    raw_data_dict_generator tok parseHunk gen (r :: rs) s =
      ({ split := (gen s).1, tokens := st, label := r.bugType } ::
        { split := (gen (gen s).2).1, tokens := tt, label := "NO_BUG" } ::
          (raw_data_dict_generator tok parseHunk gen rs (gen (gen s).2).2).1,
        (raw_data_dict_generator tok parseHunk gen rs (gen (gen s).2).2).2) :=
  generator_cons_emit tok parseHunk gen r rs s st tt hs hne ht

/-- Concrete scenario refuting C2 as stated: the before-snippet of
`cexHunk` tokenizes to one token, but the after-snippet raises a lexer
error, and the single try block of `_patch_to_source_and_target_tokens`
then returns two empty lists, so the record is discarded. -/
def cexHunk : Hunk := { source := ["-x"], target := ["+)"] }

/-- A tokenizer exhibiting a lexer error on the text ")" (javalang's lexer
rejects such malformed input) and one identifier token otherwise. -/
def cexTok : Tokenizer :=
  fun s => if s = ")" then .error "LexerError" else .ok [("Identifier", s)]

/-- Diff parser for the counterexamples: every patch string parses to
`cexHunk`. -/
def cexParse : String → Hunk := fun _ => cexHunk

/-- A constant split generator for the counterexamples. -/
def cexGen : Unit → String × Unit := fun _ => ("train", ())

/-- The raw dataset entry used by the counterexamples. -/
def cexRecord : JsonRecord := { fixPatch := "p", bugType := "CHANGE_IDENTIFIER_USED" }

/-- Counterexample to C2 as stated: the before-snippet tokenizes to the
non-empty list [("Identifier","x")], yet the extractor emits zero records
(not two), because the after-snippet raises a lexer error and the single
try block discards both token lists. -/
theorem C2_counterexample :
    cexTok (sourceText (cexParse cexRecord.fixPatch)) = .ok [("Identifier", "x")] ∧
    ([("Identifier", "x")] : List Tok) ≠ [] ∧
    cexTok (targetText (cexParse cexRecord.fixPatch)) = .error "LexerError" ∧
    (raw_data_dict_generator cexTok cexParse cexGen [cexRecord] ()).1 = [] ∧
    (raw_data_dict_generator cexTok cexParse cexGen [cexRecord] ()).1.length ≠ 2 := by
  refine ⟨rfl, by simp, rfl, rfl, ?_⟩
  intro h2
  rw [show (raw_data_dict_generator cexTok cexParse cexGen [cexRecord] ()).1 = [] from rfl] at h2
  simp at h2

/-- C3 (amended): when the after-snippet of a record raises a lexer error,
the single try block of `_patch_to_source_and_target_tokens` returns both
token lists empty — the before-tokens are NOT preserved — and the record is
discarded entirely: zero examples are emitted for it. -/
theorem C3_after_error_discards_record {σ : Type} (tok : Tokenizer)
    (parseHunk : String → Hunk) (gen : σ → String × σ) (r : JsonRecord)
    (rs : List JsonRecord) (s : σ) (msg : String)
    (ht : tok (targetText (parseHunk r.fixPatch)) = .error msg) :
    patch_to_source_and_target_tokens tok (parseHunk r.fixPatch) = ([], []) ∧
    raw_data_dict_generator tok parseHunk gen (r :: rs) s =
      raw_data_dict_generator tok parseHunk gen rs s := by
  have hpt : patch_to_source_and_target_tokens tok (parseHunk r.fixPatch) = ([], []) := by
    unfold patch_to_source_and_target_tokens
    cases hs : tok (sourceText (parseHunk r.fixPatch)) with
    | error e => rfl
    | ok st => rw [ht]
  exact ⟨hpt, generator_cons_skip tok parseHunk gen r rs s (by rw [hpt])⟩

/-- The hunk for the C3 counterexample: before-snippet "y" (tokenizes),
after-snippet ")" (lexer error under `cexTok`). -/
def cexHunk3 : Hunk := { source := ["-y"], target := ["+)"] }

/-- Diff parser for the C3 counterexample. -/
def cexParse3 : String → Hunk := fun _ => cexHunk3

/-- The raw dataset entry for the C3 counterexample. -/
def cexRecord3 : JsonRecord := { fixPatch := "q", bugType := "WRONG_FUNCTION_NAME" }

/-- Counterexample to C3 as stated: the before-snippet tokenizes to a
non-empty list and the after-snippet raises a lexer error, yet the
before-tokens are not preserved (both lists come back empty) and zero
examples — not exactly one — are emitted for the record. -/
theorem C3_counterexample :
    cexTok (sourceText (cexParse3 cexRecord3.fixPatch)) = .ok [("Identifier", "y")] ∧
    cexTok (targetText (cexParse3 cexRecord3.fixPatch)) = .error "LexerError" ∧
    patch_to_source_and_target_tokens cexTok (cexParse3 cexRecord3.fixPatch) = ([], []) ∧
    (raw_data_dict_generator cexTok cexParse3 cexGen [cexRecord3] ()).1 = [] ∧
    (raw_data_dict_generator cexTok cexParse3 cexGen [cexRecord3] ()).1.length ≠ 1 := by
  refine ⟨rfl, rfl, rfl, rfl, ?_⟩
  intro h1
  rw [show (raw_data_dict_generator cexTok cexParse3 cexGen [cexRecord3] ()).1 = [] from rfl] at h1
  simp at h1

/-- C4: a record whose before-snippet produces zero tokens — because its
tokenization raises a lexer error or returns an empty token list — is
discarded entirely: the extractor emits nothing for it. -/
theorem C4_empty_before_discards_record {σ : Type} (tok : Tokenizer)
    (parseHunk : String → Hunk) (gen : σ → String × σ) (r : JsonRecord)
    (rs : List JsonRecord) (s : σ)
    (h : (∃ msg, tok (sourceText (parseHunk r.fixPatch)) = .error msg) ∨
      tok (sourceText (parseHunk r.fixPatch)) = .ok []) :
    raw_data_dict_generator tok parseHunk gen (r :: rs) s =
      raw_data_dict_generator tok parseHunk gen rs s := by
  apply generator_cons_skip
  unfold patch_to_source_and_target_tokens
  rcases h with ⟨msg, hmsg⟩ | hok
  · rw [hmsg]
  · rw [hok]
    cases ht : tok (targetText (parseHunk r.fixPatch)) with
    | error e => rfl
    | ok tt => rfl

theorem join_cons (x : String) (xs : List String) :
    String.join (x :: xs) = x ++ String.join xs := by
  rw [String.join_eq, String.join_eq]
  apply String.ext
  simp [String.data_append]

theorem join_map_strip (f : String → String) (xs : List String) :
    String.join (xs.map f) = xs.foldr (fun l acc => f l ++ acc) "" := by
  induction xs with
  | nil => rfl
  | cons x xs ih => simp only [List.map_cons, join_cons, ih, List.foldr_cons]

/-- C7: the texts handed to the tokenizer come from the first hunk of the
first changed file only (the rest of the parsed patch is ignored), and each
text is the concatenation, in line order, of the source (resp. target)
lines with exactly their first character — the diff marker — stripped. -/
theorem C7_first_hunk_first_file_strip_marker (tok : Tokenizer) (h : Hunk)
    (hs : List Hunk) (fs : List (List Hunk)) :
    patch_set_to_source_and_target_tokens tok ((h :: hs) :: fs) =
      some (patch_to_source_and_target_tokens tok h) ∧
    sourceText h = h.source.foldr (fun l acc => l.drop 1 ++ acc) "" ∧
    targetText h = h.target.foldr (fun l acc => l.drop 1 ++ acc) "" := by
  refine ⟨rfl, ?_, ?_⟩
  · exact join_map_strip (fun l => l.drop 1) h.source
  · exact join_map_strip (fun l => l.drop 1) h.target

/-- C8: extraction is deterministic up to the split generator — two runs
over the same decoded records, with split generators (even over different
state types) producing the same sequence of draws, emit identical record
sequences, every split assignment included. -/
theorem C8_deterministic_given_draws {σ σ' : Type} (tok : Tokenizer)
    (parseHunk : String → Hunk) (gen : σ → String × σ) (gen' : σ' → String × σ')
    (records : List JsonRecord) (s : σ) (s' : σ')
    (H : ∀ n, drawStream gen s n = drawStream gen' s' n) :
    (raw_data_dict_generator tok parseHunk gen records s).1 =
      (raw_data_dict_generator tok parseHunk gen' records s').1 := by
  induction records generalizing s s' with
  | nil => rfl
  | cons r rs ih =>
    by_cases hemp : (patch_to_source_and_target_tokens tok (parseHunk r.fixPatch)).1.isEmpty = true
    · have he : (patch_to_source_and_target_tokens tok (parseHunk r.fixPatch)).1 = [] :=
        List.isEmpty_iff.mp hemp
      rw [generator_cons_skip tok parseHunk gen r rs s he,
        generator_cons_skip tok parseHunk gen' r rs s' he]
      exact ih s s' H
    · have hemp' : (patch_to_source_and_target_tokens tok (parseHunk r.fixPatch)).1.isEmpty = false :=
        Bool.not_eq_true _ ▸ eq_false_of_ne_true hemp
      have h0 : (gen s).1 = (gen' s').1 := H 0
      have h1 : (gen (gen s).2).1 = (gen' (gen' s').2).1 := H 1
      have H2 : ∀ n, drawStream gen (gen (gen s).2).2 n = drawStream gen' (gen' (gen' s').2).2 n :=
        fun n => H (n + 2)
      simp only [raw_data_dict_generator, hemp', Bool.false_eq_true, if_false]
      rw [h0, h1, ih (gen (gen s).2).2 (gen' (gen' s').2).2 H2]

/-- C10: a record whose before-snippet tokenizes non-empty and whose
after-snippet tokenizes without error to zero tokens (a pure deletion)
still yields the NO_BUG record, with an empty token list; and the converter
turns that empty token list into a graph with zero nodes, zero edges and
the single class output NO_BUG before the hooks and validation run. -/
theorem C10_empty_after_snippet_still_emitted {σ : Type} (tok : Tokenizer)
    (parseHunk : String → Hunk) (gen : σ → String × σ) (r : JsonRecord)
    (rs : List JsonRecord) (s : σ) (st : List Tok)
    (hs : tok (sourceText (parseHunk r.fixPatch)) = .ok st) (hne : st ≠ [])
    (ht : tok (targetText (parseHunk r.fixPatch)) = .ok []) :
    raw_data_dict_generator tok parseHunk gen (r :: rs) s =
      ({ split := (gen s).1, tokens := st, label := r.bugType } ::
        { split := (gen (gen s).2).1, tokens := [], label := "NO_BUG" } ::
          (raw_data_dict_generator tok parseHunk gen rs (gen (gen s).2).2).1,
        (raw_data_dict_generator tok parseHunk gen rs (gen (gen s).2).2).2) ∧
    buildGraph [] "NO_BUG" = .ok { nodes := [], edges := [], output := some "NO_BUG" } := by
  constructor
  · exact generator_cons_emit tok parseHunk gen r rs s st [] hs hne ht
  · rw [buildGraph_eq]
    rfl

/-- Tokenizer for the witnesses: one identifier token for any non-empty
text, none for the empty text. -/
def wTok : Tokenizer := fun s => .ok (if s = "" then [] else [("Identifier", s)])

/-- Hunk for the witnesses: before-snippet "a", after-snippet "b". -/
def wHunk : Hunk := { source := ["-a"], target := ["+b"] }

/-- Diff parser for the witnesses. -/
def wParse : String → Hunk := fun _ => wHunk

/-- Raw dataset entry for the witnesses. -/
def wRecord : JsonRecord := { fixPatch := "w", bugType := "SWAP_ARGUMENTS" }

/-- A counter-based split generator for the C8 witness. -/
def wGenNat : Nat → String × Nat := fun n => ("train", n + 1)

/-- A tokenizer that never produces tokens, for the C4 witness. -/
def wTokE : Tokenizer := fun _ => .ok []

/-- A tokenizer producing tokens only for the text "a", for the C10
witness. -/
def wTok10 : Tokenizer := fun s => .ok (if s = "a" then [("Identifier", "a")] else [])

/-- Raw record for the pipeline witnesses: one token, label "L". -/
def wRaw : RawRecord := { split := "train", tokens := [("A", "x")], label := "L" }

theorem C2_witness :
    wTok (sourceText (wParse wRecord.fixPatch)) = .ok [("Identifier", "a")] ∧
    ([("Identifier", "a")] : List Tok) ≠ [] ∧
    wTok (targetText (wParse wRecord.fixPatch)) = .ok [("Identifier", "b")] ∧
    raw_data_dict_generator wTok wParse cexGen [wRecord] () =
      ([{ split := "train", tokens := [("Identifier", "a")], label := "SWAP_ARGUMENTS" },
        { split := "train", tokens := [("Identifier", "b")], label := "NO_BUG" }], ()) :=
  ⟨rfl, by simp, rfl,
    C2_two_records_per_patch wTok wParse cexGen wRecord [] () [("Identifier", "a")]
      [("Identifier", "b")] rfl (by simp) rfl⟩

theorem C3_witness :
    cexTok (targetText (cexParse3 cexRecord3.fixPatch)) = .error "LexerError" ∧
    (patch_to_source_and_target_tokens cexTok (cexParse3 cexRecord3.fixPatch) = ([], []) ∧
      raw_data_dict_generator cexTok cexParse3 cexGen [cexRecord3] () =
        raw_data_dict_generator cexTok cexParse3 cexGen [] ()) :=
  ⟨rfl,
    C3_after_error_discards_record cexTok cexParse3 cexGen cexRecord3 [] () "LexerError" rfl⟩

theorem C4_witness :
    ((∃ msg, wTokE (sourceText (wParse wRecord.fixPatch)) = .error msg) ∨
      wTokE (sourceText (wParse wRecord.fixPatch)) = .ok []) ∧
    raw_data_dict_generator wTokE wParse cexGen [wRecord] () =
      raw_data_dict_generator wTokE wParse cexGen [] () :=
  ⟨Or.inr rfl,
    C4_empty_before_discards_record wTokE wParse cexGen wRecord [] () (Or.inr rfl)⟩

theorem C6_witness :
    (applyTransforms [] (chainGraph wRaw.tokens wRaw.label)).check_if_valid = true ∧
    raw_data_to_graph_to_output_example []
        [fun _ => true, fun _ => false, fun _ => true] wRaw =
      ([PipelineEvent.validate true, PipelineEvent.filterHook 0 true,
        PipelineEvent.filterHook 1 false], .ok ("train", none)) := by
  have hv : (applyTransforms [] (chainGraph wRaw.tokens wRaw.label)).check_if_valid = true := rfl
  have h := (C6_filter_rejection_is_silent [] wRaw hv).2 [fun _ => true] (fun _ => false)
    [fun _ => true] (by intro a ha; rw [List.mem_singleton] at ha; subst ha; rfl) rfl
  exact ⟨hv, h⟩

theorem C8_witness :
    (∀ n, drawStream cexGen () n = drawStream wGenNat 0 n) ∧
    (raw_data_dict_generator wTok wParse cexGen [wRecord] ()).1 =
      (raw_data_dict_generator wTok wParse wGenNat [wRecord] 0).1 :=
  ⟨fun _ => rfl,
    C8_deterministic_given_draws wTok wParse cexGen wGenNat [wRecord] () 0 (fun _ => rfl)⟩

theorem C9_witness :
    (raw_data_to_graph_to_output_example [] [] wRaw).2 =
      .ok ("train", some (chainGraph wRaw.tokens wRaw.label)) ∧
    (("train", some (chainGraph wRaw.tokens wRaw.label)) :
      String × Option GraphToOutputExample).1 = wRaw.split :=
  ⟨rfl,
    C9_split_unchanged [] [] wRaw ("train", some (chainGraph wRaw.tokens wRaw.label)) rfl⟩

theorem C10_witness :
    wTok10 (sourceText (wParse wRecord.fixPatch)) = .ok [("Identifier", "a")] ∧
    ([("Identifier", "a")] : List Tok) ≠ [] ∧
    wTok10 (targetText (wParse wRecord.fixPatch)) = .ok [] ∧
    (raw_data_dict_generator wTok10 wParse cexGen [wRecord] () =
      ([{ split := "train", tokens := [("Identifier", "a")], label := "SWAP_ARGUMENTS" },
        { split := "train", tokens := [], label := "NO_BUG" }], ()) ∧
      buildGraph [] "NO_BUG" = .ok { nodes := [], edges := [], output := some "NO_BUG" }) :=
  ⟨rfl, by simp, rfl,
    C10_empty_after_snippet_still_emitted wTok10 wParse cexGen wRecord [] ()
      [("Identifier", "a")] rfl (by simp) rfl⟩
